import Mathlib

/-!
Shallow embedding of the risk detection and scoring engine of the Romanian
public procurement platform (design source: "Risk Detection Algorithms
Design", classes `SingleBidderRiskDetector`, `PriceAnomalyDetector`,
`RiskScoreCalculator`, `GeographicClusteringDetector`, `RiskAlertGenerator`).

Python floats are modelled as real numbers; Python lists as Lean lists;
database reads as explicit arguments (the value the query would return);
a Python `NameError` (reference to an unassigned local) and any exception
propagating out of a call are modelled with `Except PyErr`.
-/

/-- Exceptions a detector call can raise, as seen by the aggregator. -/
inductive PyErr where
  | nameError : PyErr
  | timeout : PyErr
  | runtimeError : String → PyErr
deriving DecidableEq

/-- Tender fields read by the detectors (`tender.estimated_value`,
`tender.cpv_code`, `tender.contracting_authority_id`). -/
structure Tender where
  estimated_value : ℝ
  cpv_code : String
  contracting_authority_id : ℤ

/-- A bid row as the detectors consume it (`bid["bid_amount"]`). -/
structure Bid where
  bid_amount : ℝ

/-- A historical price row (`item["price"]`). -/
structure HistItem where
  price : ℝ

namespace SingleBidderRiskDetector

/-- The `risk_thresholds` dictionary set in
`SingleBidderRiskDetector.__init__`. -/
structure Thresholds where
  single_bidder_base_score : ℝ
  high_value_threshold : ℝ
  critical_cpv_codes : List String
  repeat_authority_threshold : ℕ

/-- Default thresholds from `__init__`: base 75, high value 500000 RON,
critical CPV codes for construction / IT / business services, repeat
threshold 3. -/
def Thresholds.init : Thresholds :=
  { single_bidder_base_score := 75
    high_value_threshold := 500000
    critical_cpv_codes := ["45000000", "72000000", "79000000"]
    repeat_authority_threshold := 3 }

/-- Embedding of `count_authority_single_bidder_tenders`: the SQL count with
`result.scalar() or 0`, i.e. a missing scalar is coalesced to 0. The
database answer is passed in as `dbCount`. -/
def count_authority_single_bidder_tenders (dbCount : Option ℕ) : ℕ :=
  dbCount.getD 0

/-- The `analysis_details` dictionary of `analyze_tender_risk`. -/
structure Details where
  bid_count : ℕ
  tender_value : ℝ
  cpv_code : String
  authority_single_bidder_history : ℕ

/-- The dictionary returned by `analyze_tender_risk`. -/
structure Result where
  risk_score : ℝ
  risk_factors : List String
  algorithm : String
  analysis_details : Details

/-- Embedding of `SingleBidderRiskDetector.analyze_tender_risk`.  When `len(bids) == 1`
the score is built from the base 75 plus the high-value (+15), critical-CPV
(+10) and repeat-authority (+20) bonuses, clamped with `min(., 100)`.
When `len(bids) != 1` the local `authority_single_bidder_count` is never
assigned, yet the returned `analysis_details` dictionary reads it
unconditionally, so the call raises `NameError`. -/
noncomputable def analyze_tender_risk (self : Thresholds) (tender : Tender)
    (bids : List Bid) (dbCount : Option ℕ) : Except PyErr Result :=
  if bids.length = 1 then
    let authority_single_bidder_count :=
      count_authority_single_bidder_tenders dbCount
    let high_value := self.high_value_threshold < tender.estimated_value
    let critical := tender.cpv_code ∈ self.critical_cpv_codes
    let repeat_authority :=
      self.repeat_authority_threshold ≤ authority_single_bidder_count
    let risk_score : ℝ := self.single_bidder_base_score
      + (if high_value then 15 else 0)
      + (if critical then 10 else 0)
      + (if repeat_authority then 20 else 0)
    let risk_factors := ["single_bidder"]
      ++ (if high_value then ["high_value_single_bidder"] else [])
      ++ (if critical then ["critical_sector_single_bidder"] else [])
      ++ (if repeat_authority then ["repeat_authority_single_bidder"] else [])
    .ok { risk_score := min risk_score 100
          risk_factors := risk_factors
          algorithm := "single_bidder_detection"
          analysis_details :=
            { bid_count := bids.length
              tender_value := tender.estimated_value
              cpv_code := tender.cpv_code
              authority_single_bidder_history :=
                authority_single_bidder_count } }
  else
    -- `risk_score` stays 0.0 and `risk_factors` stays [], but building the
    -- return dictionary dereferences the unassigned local
    -- `authority_single_bidder_count`, raising NameError.
    .error PyErr.nameError

end SingleBidderRiskDetector

namespace RiskScoreCalculator

/-- The `algorithm_weights` and `risk_level_thresholds` dictionaries set in
`RiskScoreCalculator.__init__`. -/
structure Config where
  weight_single_bidder : ℝ
  weight_price_anomaly : ℝ
  weight_frequent_winner : ℝ
  weight_geographic : ℝ
  threshold_low : ℝ
  threshold_medium : ℝ
  threshold_high : ℝ
  threshold_critical : ℝ

/-- Defaults from `__init__`: weights 0.3 / 0.25 / 0.25 / 0.2 and risk
level thresholds 0 / 30 / 60 / 80. -/
def Config.init : Config :=
  { weight_single_bidder := 0.3
    weight_price_anomaly := 0.25
    weight_frequent_winner := 0.25
    weight_geographic := 0.2
    threshold_low := 0
    threshold_medium := 30
    threshold_high := 60
    threshold_critical := 80 }

/-- What the aggregator reads from one detector's returned dictionary:
`result["risk_score"]` and `result["risk_factors"]`. -/
structure DetectorResult where
  risk_score : ℝ
  risk_factors : List String

/-- Embedding of `RiskScoreCalculator.determine_risk_level`. -/
noncomputable def determine_risk_level (self : Config) (score : ℝ) : String :=
  if self.threshold_critical ≤ score then "critical"
  else if self.threshold_high ≤ score then "high"
  else if self.threshold_medium ≤ score then "medium"
  else "low"

/-- The dictionary returned by `calculate_composite_risk_score`
(`detailed_analysis` keeps each detector's result). -/
structure CompositeResult where
  overall_risk_score : ℝ
  risk_level : String
  single_bidder_risk : ℝ
  price_anomaly_risk : ℝ
  frequency_risk : ℝ
  geographic_risk : ℝ
  risk_factors : List String
  detailed_single_bidder : DetectorResult
  detailed_price_anomaly : DetectorResult
  detailed_frequent_winner : DetectorResult
  detailed_geographic : DetectorResult

/-- The pure tail of `calculate_composite_risk_score`, once all four
detector dictionaries exist: the weighted sum
`Σ result["risk_score"] * weight`, the concatenation of the four
`risk_factors` lists, and the risk level.  No clamping is applied to the
weighted score. -/
noncomputable def combine_results (self : Config)
    (single_bidder_result price_anomaly_result
     frequent_winner_result geographic_result : DetectorResult) :
    CompositeResult :=
  let weighted_score :=
    single_bidder_result.risk_score * self.weight_single_bidder
    + price_anomaly_result.risk_score * self.weight_price_anomaly
    + frequent_winner_result.risk_score * self.weight_frequent_winner
    + geographic_result.risk_score * self.weight_geographic
  let all_risk_factors :=
    single_bidder_result.risk_factors
    ++ price_anomaly_result.risk_factors
    ++ frequent_winner_result.risk_factors
    ++ geographic_result.risk_factors
  { overall_risk_score := weighted_score
    risk_level := determine_risk_level self weighted_score
    single_bidder_risk := single_bidder_result.risk_score
    price_anomaly_risk := price_anomaly_result.risk_score
    frequency_risk := frequent_winner_result.risk_score
    geographic_risk := geographic_result.risk_score
    risk_factors := all_risk_factors
    detailed_single_bidder := single_bidder_result
    detailed_price_anomaly := price_anomaly_result
    detailed_frequent_winner := frequent_winner_result
    detailed_geographic := geographic_result }

/-- Embedding of `RiskScoreCalculator.calculate_composite_risk_score`: the four detector
calls run one after another with no try/except, so the first exception
propagates and aborts the whole assessment; otherwise the four result
dictionaries are combined by `combine_results`.  Each argument is the
outcome of the corresponding detector call. -/
noncomputable def calculate_composite_risk_score (self : Config)
    (single_bidder_call price_anomaly_call
     frequent_winner_call geographic_call : Except PyErr DetectorResult) :
    Except PyErr CompositeResult := do
  let single_bidder_result ← single_bidder_call
  let price_anomaly_result ← price_anomaly_call
  let frequent_winner_result ← frequent_winner_call
  let geographic_result ← geographic_call
  pure (combine_results self single_bidder_result price_anomaly_result
    frequent_winner_result geographic_result)

end RiskScoreCalculator

/-- Embedding of `np.mean`: sum divided by length (over the reals). -/
noncomputable def npMean (l : List ℝ) : ℝ := l.sum / l.length

/-- Embedding of `np.std`: the population standard deviation,
`sqrt(mean((x - mean)^2))`. -/
noncomputable def npStd (l : List ℝ) : ℝ :=
  Real.sqrt ((l.map (fun x => (x - npMean l) ^ 2)).sum / l.length)

namespace PriceAnomalyDetector

/-- The `anomaly_thresholds` dictionary set in
`PriceAnomalyDetector.__init__`. -/
structure Thresholds where
  z_score_threshold : ℝ
  isolation_forest_contamination : ℝ
  min_historical_samples : ℕ
  price_deviation_threshold : ℝ

/-- Defaults from `__init__`: z threshold 2.5, contamination 0.1, minimum
10 historical samples, 30% deviation threshold. -/
def Thresholds.init : Thresholds :=
  { z_score_threshold := 2.5
    isolation_forest_contamination := 0.1
    min_historical_samples := 10
    price_deviation_threshold := 0.3 }

/-- One current bid's z-score in `detect_statistical_outliers`:
`abs((price - historical_mean) / historical_std) if historical_std > 0
else 0`.  The division is only reached when the standard deviation is
strictly positive. -/
noncomputable def z_score_of (historical_mean historical_std price : ℝ) : ℝ :=
  if 0 < historical_std then |(price - historical_mean) / historical_std|
  else 0

/-- The `for price in current_prices` loop of
`detect_statistical_outliers`: each bid whose z-score exceeds the
threshold adds 25 and `unusually_low_price` when below the historical
mean, else 15 and `unusually_high_price`. -/
noncomputable def outlier_loop (self : Thresholds)
    (historical_mean historical_std : ℝ) (current_prices : List ℝ) :
    ℝ × List String :=
  current_prices.foldl
    (fun acc price =>
      let z_score := z_score_of historical_mean historical_std price
      if self.z_score_threshold < z_score then
        if price < historical_mean then
          (acc.1 + 25, acc.2 ++ ["unusually_low_price"])
        else
          (acc.1 + 15, acc.2 ++ ["unusually_high_price"])
      else acc)
    (0, [])

/-- An unspecified model of sklearn's
`IsolationForest(contamination, random_state).fit(fit_prices)
.decision_function([price])`: any function of the effective seed, the
contamination rate, the fitted sample and the scored price.  The engine
never depends on its internals. -/
def DecisionFunction : Type :=
  ℕ → ℝ → List ℝ → ℝ → ℝ

/-- Seed resolution of `IsolationForest(..., random_state=...)`: sklearn uses the given
`random_state` when present and the ambient global random state
otherwise. -/
def effective_seed (random_state : Option ℕ) (ambient_rng : ℕ) : ℕ :=
  random_state.getD ambient_rng

/-- Embedding of `PriceAnomalyDetector.isolation_forest_analysis`: fit on
`historical_prices + current_prices` with `random_state=42`, score the
current prices, and return `max(0, 1 - (mean(scores) + 1) / 2)`. -/
noncomputable def isolation_forest_analysis (self : Thresholds)
    (df : DecisionFunction) (ambient_rng : ℕ)
    (current_prices historical_prices : List ℝ) : ℝ :=
  let all_prices := historical_prices ++ current_prices
  let seed := effective_seed (some 42) ambient_rng
  let anomaly_scores := current_prices.map
    (df seed self.isolation_forest_contamination all_prices)
  max 0 (1 - (npMean anomaly_scores + 1) / 2)

/-- The `details` dictionary of `detect_statistical_outliers`
(`isolation_forest_score` is only set inside the anomaly branch). -/
structure OutlierDetails where
  historical_mean : ℝ
  historical_std : ℝ
  current_prices : List ℝ
  isolation_forest_score : Option ℝ

/-- The dictionary returned by `detect_statistical_outliers` (an empty
`details` dictionary is `none`). -/
structure OutlierResult where
  risk_score : ℝ
  risk_factors : List String
  details : Option OutlierDetails

/-- Embedding of `PriceAnomalyDetector.detect_statistical_outliers`: empty history
returns the empty result; otherwise the z-score loop runs over the
current prices, and with at least 20 historical prices the isolation
forest adds 20 and `price_pattern_anomaly` when its normalized score
exceeds 0.5. -/
noncomputable def detect_statistical_outliers (self : Thresholds)
    (df : DecisionFunction) (ambient_rng : ℕ)
    (bids : List Bid) (historical_data : List HistItem) : OutlierResult :=
  if historical_data.isEmpty then { risk_score := 0, risk_factors := [], details := none }
  else
    let historical_prices := historical_data.map (fun item => item.price)
    let current_prices := bids.map (fun bid => bid.bid_amount)
    let historical_mean := npMean historical_prices
    let historical_std := npStd historical_prices
    let loop := outlier_loop self historical_mean historical_std current_prices
    if 20 ≤ historical_prices.length then
      let anomaly_score :=
        isolation_forest_analysis self df ambient_rng current_prices historical_prices
      if 0.5 < anomaly_score then
        { risk_score := loop.1 + 20
          risk_factors := loop.2 ++ ["price_pattern_anomaly"]
          details := some { historical_mean := historical_mean
                            historical_std := historical_std
                            current_prices := current_prices
                            isolation_forest_score := some anomaly_score } }
      else
        { risk_score := loop.1
          risk_factors := loop.2
          details := some { historical_mean := historical_mean
                            historical_std := historical_std
                            current_prices := current_prices
                            isolation_forest_score := none } }
    else
      { risk_score := loop.1
        risk_factors := loop.2
        details := some { historical_mean := historical_mean
                          historical_std := historical_std
                          current_prices := current_prices
                          isolation_forest_score := none } }

/-- Python `min(l)` over a nonempty list of floats. -/
def listMin : List ℝ → ℝ
  | [] => 0
  | x :: xs => xs.foldl min x

/-- Python `max(l)` over a nonempty list of floats. -/
def listMax : List ℝ → ℝ
  | [] => 0
  | x :: xs => xs.foldl max x

/-- The sorted bid prices of `analyze_bid_spread`
(`prices = [...]; prices.sort()`). -/
noncomputable def spread_prices (bids : List Bid) : List ℝ :=
  (bids.map (fun bid => bid.bid_amount)).mergeSort (fun a b => decide (a ≤ b))

/-- The coefficient of variation of `analyze_bid_spread`:
`std_price / mean_price if mean_price > 0 else 0`. -/
noncomputable def spread_cv (bids : List Bid) : ℝ :=
  let prices := spread_prices bids
  if 0 < npMean prices then npStd prices / npMean prices else 0

/-- The `details` dictionary of `analyze_bid_spread`. -/
structure SpreadDetails where
  bid_count : ℕ
  price_min : ℝ
  price_max : ℝ
  coefficient_of_variation : ℝ
  spread_percentage : ℝ

/-- The dictionary returned by `analyze_bid_spread` (an empty `details`
dictionary is `none`). -/
structure SpreadResult where
  risk_score : ℝ
  risk_factors : List String
  details : Option SpreadDetails

/-- Embedding of `PriceAnomalyDetector.analyze_bid_spread`: fewer than 2 bids returns
the empty result; otherwise CV < 0.05 with more than 2 bids adds 30 and
`suspiciously_similar_bids`, and CV > 0.5 adds 15 and
`unusual_bid_spread`. -/
noncomputable def analyze_bid_spread (bids : List Bid) : SpreadResult :=
  if bids.length < 2 then { risk_score := 0, risk_factors := [], details := none }
  else
    let prices := spread_prices bids
    let mean_price := npMean prices
    let cv := spread_cv bids
    let similar := cv < 0.05 ∧ 2 < bids.length
    let unusual := 0.5 < cv
    { risk_score := (if similar then 30 else 0) + (if unusual then 15 else 0)
      risk_factors :=
        (if similar then ["suspiciously_similar_bids"] else [])
        ++ (if unusual then ["unusual_bid_spread"] else [])
      details := some
        { bid_count := bids.length
          price_min := listMin prices
          price_max := listMax prices
          coefficient_of_variation := cv
          spread_percentage :=
            if 0 < mean_price then (listMax prices - listMin prices) / mean_price
            else 0 } }

/-- What `analyze_winner_price` returns to `analyze_price_anomaly`.  The
body of `analyze_winner_price` is absent from the source, so the caller is
parameterized over it as an arbitrary pure function of the bids and the
tender's estimated value. -/
structure WinnerResult where
  risk_score : ℝ
  risk_factors : List String

/-- Modelled from the spec: `create_empty_result` is absent from the
source; the spec's edge cases describe the empty result as score 0 with
no tags. -/
def create_empty_result : (ℝ × List String) := (0, [])

/-- The dictionary returned by `analyze_price_anomaly`. -/
structure PAResult where
  risk_score : ℝ
  risk_factors : List String
  algorithm : String
  details_outliers : Option OutlierDetails
  details_spread : Option SpreadDetails

/-- Embedding of `PriceAnomalyDetector.analyze_price_anomaly`: empty bid list returns
the empty result; otherwise the statistical outlier check runs only with
at least `min_historical_samples` historical rows, the spread check only
with more than one bid, the winner-price check always; scores add up and
are clamped by `min(., 100)`, and the factor lists are concatenated in
that order. -/
noncomputable def analyze_price_anomaly (self : Thresholds)
    (df : DecisionFunction) (ambient_rng : ℕ)
    (winner_price_check : List Bid → ℝ → WinnerResult)
    (tender : Tender) (bids : List Bid) (historical_data : List HistItem) :
    PAResult :=
  if bids.isEmpty then
    { risk_score := create_empty_result.1
      risk_factors := create_empty_result.2
      algorithm := "price_anomaly_detection"
      details_outliers := none
      details_spread := none }
  else
    let outliers :=
      if self.min_historical_samples ≤ historical_data.length then
        detect_statistical_outliers self df ambient_rng bids historical_data
      else { risk_score := 0, risk_factors := [], details := none }
    let spread :=
      if 1 < bids.length then analyze_bid_spread bids
      else { risk_score := 0, risk_factors := [], details := none }
    let winner := winner_price_check bids tender.estimated_value
    { risk_score :=
        min (outliers.risk_score + spread.risk_score + winner.risk_score) 100
      risk_factors :=
        outliers.risk_factors ++ spread.risk_factors ++ winner.risk_factors
      algorithm := "price_anomaly_detection"
      details_outliers := outliers.details
      details_spread := spread.details }

end PriceAnomalyDetector

namespace GeographicClusteringDetector

/-- Embedding of `math.radians`: degrees to radians. -/
noncomputable def radians (degrees : ℝ) : ℝ := degrees * (Real.pi / 180)

/-- Embedding of `GeographicClusteringDetector.calculate_distance`: the Haversine
formula, `c * r` with `r = 6371` km and
`c = 2 * asin(sqrt(sin(dlat/2)^2 + cos(lat1)cos(lat2)sin(dlon/2)^2))`. -/
noncomputable def calculate_distance (lat1 lon1 lat2 lon2 : ℝ) : ℝ :=
  let rlat1 := radians lat1
  let rlon1 := radians lon1
  let rlat2 := radians lat2
  let rlon2 := radians lon2
  let dlat := rlat2 - rlat1
  let dlon := rlon2 - rlon1
  let a := Real.sin (dlat / 2) ^ 2
    + Real.cos rlat1 * Real.cos rlat2 * Real.sin (dlon / 2) ^ 2
  let c := 2 * Real.arcsin (Real.sqrt a)
  c * 6371

/-- The `center_location` dictionary handed to
`find_nearby_authorities`. -/
structure Location where
  latitude : ℝ
  longitude : ℝ

/-- One row of the authority query (`id, latitude, longitude`, both
coordinates non-null). -/
structure AuthorityRow where
  id : ℤ
  latitude : ℝ
  longitude : ℝ

/-- Embedding of `GeographicClusteringDetector.find_nearby_authorities`: keep the id of
every authority whose Haversine distance from the center is within
`radius_km`.  The `authorities` list stands for the rows the SQL query
returns (those with non-null coordinates). -/
noncomputable def find_nearby_authorities (center_location : Location)
    (authorities : List AuthorityRow) (radius_km : ℝ) : List ℤ :=
  (authorities.filter (fun authority =>
    decide (calculate_distance
      center_location.latitude center_location.longitude
      authority.latitude authority.longitude ≤ radius_km))).map
    (fun authority => authority.id)

end GeographicClusteringDetector

namespace RiskAlertGenerator

/-- Embedding of `RiskAlertGenerator.get_recommended_actions`: one fixed action per
recognized risk factor, in a fixed order; `return actions or [...]` falls
back to the general recommendation when no recognized factor is
present. -/
def get_recommended_actions (risk_factors : List String) : List String :=
  let actions :=
    (if "single_bidder" ∈ risk_factors then
      ["Investigate market conditions and bidder eligibility"] else [])
    ++ (if "unusually_low_price" ∈ risk_factors then
      ["Review bid evaluation criteria and financial capacity"] else [])
    ++ (if "high_authority_win_rate" ∈ risk_factors then
      ["Audit contracting authority procedures"] else [])
    ++ (if "geographic_monopoly_pattern" ∈ risk_factors then
      ["Investigate regional market competition"] else [])
  if actions = [] then ["General risk assessment recommended"] else actions

end RiskAlertGenerator

namespace RiskScoreCalculator

/-- The composite pipeline of `calculate_composite_risk_score` with the
database reads made explicit: the single-bidder and price-anomaly
detectors are run from their inputs (tender, bids, authority history,
historical price sample), while the frequent-winner and geographic
detectors — whose own inputs are further database aggregates — contribute
their result dictionaries.  `ambient_rng` is the global random state an
unseeded sklearn estimator would consume. -/
noncomputable def run_assessment (self : Config)
    (sb_self : SingleBidderRiskDetector.Thresholds)
    (pa_self : PriceAnomalyDetector.Thresholds)
    (df : PriceAnomalyDetector.DecisionFunction) (ambient_rng : ℕ)
    (winner_price_check : List Bid → ℝ → PriceAnomalyDetector.WinnerResult)
    (tender : Tender) (bids : List Bid) (dbCount : Option ℕ)
    (historical_data : List HistItem)
    (frequent_winner_result geographic_result : DetectorResult) :
    Except PyErr CompositeResult := do
  let single_bidder_result ←
    SingleBidderRiskDetector.analyze_tender_risk sb_self tender bids dbCount
  let price_anomaly_result :=
    PriceAnomalyDetector.analyze_price_anomaly pa_self df ambient_rng
      winner_price_check tender bids historical_data
  calculate_composite_risk_score self
    (.ok { risk_score := single_bidder_result.risk_score
           risk_factors := single_bidder_result.risk_factors })
    (.ok { risk_score := price_anomaly_result.risk_score
           risk_factors := price_anomaly_result.risk_factors })
    (.ok frequent_winner_result)
    (.ok geographic_result)

end RiskScoreCalculator

section Claims

open SingleBidderRiskDetector PriceAnomalyDetector RiskScoreCalculator
open GeographicClusteringDetector RiskAlertGenerator

/-- C1: with the default weights 0.30 / 0.25 / 0.25 / 0.20 and every
detector sub-score in [0,100], `calculate_composite_risk_score` succeeds
and its `overall_risk_score` lies in [0,100], as does each of the four
copied sub-scores (the weights sum to 1, so the bound holds without any
explicit clamping of the composite). -/
theorem composite_score_within_bounds
    (d1 d2 d3 d4 : DetectorResult)
    (h1l : 0 ≤ d1.risk_score) (h1u : d1.risk_score ≤ 100)
    (h2l : 0 ≤ d2.risk_score) (h2u : d2.risk_score ≤ 100)
    (h3l : 0 ≤ d3.risk_score) (h3u : d3.risk_score ≤ 100)
    (h4l : 0 ≤ d4.risk_score) (h4u : d4.risk_score ≤ 100) :
    calculate_composite_risk_score Config.init (.ok d1) (.ok d2) (.ok d3) (.ok d4)
      = .ok (combine_results Config.init d1 d2 d3 d4) ∧
    0 ≤ (combine_results Config.init d1 d2 d3 d4).overall_risk_score ∧
    (combine_results Config.init d1 d2 d3 d4).overall_risk_score ≤ 100 ∧
    (0 ≤ (combine_results Config.init d1 d2 d3 d4).single_bidder_risk ∧
      (combine_results Config.init d1 d2 d3 d4).single_bidder_risk ≤ 100) ∧
    (0 ≤ (combine_results Config.init d1 d2 d3 d4).price_anomaly_risk ∧
      (combine_results Config.init d1 d2 d3 d4).price_anomaly_risk ≤ 100) ∧
    (0 ≤ (combine_results Config.init d1 d2 d3 d4).frequency_risk ∧
      (combine_results Config.init d1 d2 d3 d4).frequency_risk ≤ 100) ∧
    (0 ≤ (combine_results Config.init d1 d2 d3 d4).geographic_risk ∧
      (combine_results Config.init d1 d2 d3 d4).geographic_risk ≤ 100) := by
  refine ⟨rfl, ?_, ?_, ⟨?_, ?_⟩, ⟨?_, ?_⟩, ⟨?_, ?_⟩, ⟨?_, ?_⟩⟩ <;>
    simp only [combine_results, Config.init] <;> nlinarith

/-- Witness for `composite_score_within_bounds` at four concrete bounded
sub-scores. -/
theorem composite_score_within_bounds_witness :
    0 ≤ (combine_results Config.init ⟨100, []⟩ ⟨50, []⟩ ⟨0, []⟩ ⟨25, []⟩).overall_risk_score ∧
    (combine_results Config.init ⟨100, []⟩ ⟨50, []⟩ ⟨0, []⟩ ⟨25, []⟩).overall_risk_score ≤ 100 :=
  ⟨(composite_score_within_bounds ⟨100, []⟩ ⟨50, []⟩ ⟨0, []⟩ ⟨25, []⟩
      (by norm_num) (by norm_num) (by norm_num) (by norm_num)
      (by norm_num) (by norm_num) (by norm_num) (by norm_num)).2.1,
   (composite_score_within_bounds ⟨100, []⟩ ⟨50, []⟩ ⟨0, []⟩ ⟨25, []⟩
      (by norm_num) (by norm_num) (by norm_num) (by norm_num)
      (by norm_num) (by norm_num) (by norm_num) (by norm_num)).2.2.1⟩

/-- C2 counterexample: with the price-anomaly detector raising and the
other three succeeding, `calculate_composite_risk_score` does not return
any result at all — the exception propagates, no sub-score is zeroed and
no `partial_analysis` tag is produced. -/
theorem composite_no_failure_isolation :
    calculate_composite_risk_score Config.init
      (.ok ⟨75, ["single_bidder"]⟩) (.error PyErr.timeout) (.ok ⟨0, []⟩) (.ok ⟨0, []⟩)
      = .error PyErr.timeout ∧
    ¬ ∃ c, calculate_composite_risk_score Config.init
      (.ok ⟨75, ["single_bidder"]⟩) (.error PyErr.timeout) (.ok ⟨0, []⟩) (.ok ⟨0, []⟩)
      = .ok c ∧ "partial_analysis" ∈ c.risk_factors := by
  have h : calculate_composite_risk_score Config.init
      (.ok ⟨75, ["single_bidder"]⟩) (.error PyErr.timeout) (.ok ⟨0, []⟩) (.ok ⟨0, []⟩)
      = .error PyErr.timeout := rfl
  refine ⟨h, ?_⟩
  rintro ⟨c, hc, -⟩
  rw [h] at hc
  exact Except.noConfusion hc

/-- C2 amended: a detector call that throws makes
`calculate_composite_risk_score` propagate that exception (whichever of
the four positions fails first); there is no failure isolation. -/
theorem composite_propagates_detector_failure (self : Config) (e : PyErr) :
    (∀ r2 r3 r4, calculate_composite_risk_score self (.error e) r2 r3 r4 = .error e) ∧
    (∀ d1 r3 r4, calculate_composite_risk_score self (.ok d1) (.error e) r3 r4 = .error e) ∧
    (∀ d1 d2 r4, calculate_composite_risk_score self (.ok d1) (.ok d2) (.error e) r4 = .error e) ∧
    (∀ d1 d2 d3, calculate_composite_risk_score self (.ok d1) (.ok d2) (.ok d3) (.error e) = .error e) :=
  ⟨fun _ _ _ => rfl, fun _ _ _ => rfl, fun _ _ _ => rfl, fun _ _ _ => rfl⟩

/-- C3: a tender with zero bids makes `analyze_tender_risk` raise
`NameError` instead of returning score 0 with no tags: the returned
`analysis_details` dictionary reads `authority_single_bidder_count`, which
is only assigned inside the `len(bids) == 1` branch.  The authority
history query itself does coalesce a missing count to 0. -/
theorem analyze_tender_risk_zero_bids_raises :
    SingleBidderRiskDetector.analyze_tender_risk Thresholds.init
      ⟨100000, "30000000", 1⟩ [] (some 5) = .error PyErr.nameError ∧
    SingleBidderRiskDetector.analyze_tender_risk Thresholds.init
      ⟨750000, "45000000", 2⟩ [⟨100⟩, ⟨200⟩] none = .error PyErr.nameError ∧
    count_authority_single_bidder_tenders none = 0 :=
  ⟨rfl, rfl, rfl⟩

end Claims

section Claims2

open RiskScoreCalculator RiskAlertGenerator

/-- C4: a tender with exactly one bid, estimated value above the
high-value threshold and a critical-sector CPV code scores exactly 100
(75 + 15 + 10, clamped by `min(., 100)` whether or not the +20
repeat-authority bonus also fires), with the three corresponding tags. -/
theorem single_bidder_ceiling
    (tender : Tender) (bids : List Bid) (dbCount : Option ℕ)
    (hbids : bids.length = 1)
    (hvalue : SingleBidderRiskDetector.Thresholds.init.high_value_threshold
      < tender.estimated_value)
    (hcpv : tender.cpv_code ∈
      SingleBidderRiskDetector.Thresholds.init.critical_cpv_codes) :
    ∃ r, SingleBidderRiskDetector.analyze_tender_risk
        SingleBidderRiskDetector.Thresholds.init tender bids dbCount = .ok r ∧
      r.risk_score = 100 ∧
      "single_bidder" ∈ r.risk_factors ∧
      "high_value_single_bidder" ∈ r.risk_factors ∧
      "critical_sector_single_bidder" ∈ r.risk_factors := by
  have hvalue' : (500000 : ℝ) < tender.estimated_value := by
    simpa [SingleBidderRiskDetector.Thresholds.init] using hvalue
  have hcpv' : tender.cpv_code = "45000000" ∨ tender.cpv_code = "72000000"
      ∨ tender.cpv_code = "79000000" := by
    simpa [SingleBidderRiskDetector.Thresholds.init] using hcpv
  have key : SingleBidderRiskDetector.analyze_tender_risk
      SingleBidderRiskDetector.Thresholds.init tender bids dbCount = .ok
      { risk_score := 100
        risk_factors := ["single_bidder", "high_value_single_bidder",
            "critical_sector_single_bidder"]
          ++ (if (3 : ℕ) ≤
                SingleBidderRiskDetector.count_authority_single_bidder_tenders
                  dbCount
              then ["repeat_authority_single_bidder"] else [])
        algorithm := "single_bidder_detection"
        analysis_details := ⟨bids.length, tender.estimated_value,
          tender.cpv_code,
          SingleBidderRiskDetector.count_authority_single_bidder_tenders
            dbCount⟩ } := by
    rcases hcpv' with h | h | h <;>
      by_cases hrep : (3 : ℕ) ≤
        SingleBidderRiskDetector.count_authority_single_bidder_tenders dbCount <;>
        norm_num [SingleBidderRiskDetector.analyze_tender_risk,
          SingleBidderRiskDetector.Thresholds.init, hbids, hvalue', h, hrep,
          min_def]
  exact ⟨_, key, rfl, by simp, by simp, by simp⟩

/-- Witness for `single_bidder_ceiling` at a concrete high-value
construction tender with a single bid. -/
theorem single_bidder_ceiling_witness :
    ∃ r, SingleBidderRiskDetector.analyze_tender_risk
        SingleBidderRiskDetector.Thresholds.init
        ⟨600000, "45000000", 7⟩ [⟨550000⟩] none = .ok r ∧
      r.risk_score = 100 ∧
      "single_bidder" ∈ r.risk_factors ∧
      "high_value_single_bidder" ∈ r.risk_factors ∧
      "critical_sector_single_bidder" ∈ r.risk_factors :=
  single_bidder_ceiling ⟨600000, "45000000", 7⟩ [⟨550000⟩] none rfl
    (by norm_num [SingleBidderRiskDetector.Thresholds.init])
    (by simp [SingleBidderRiskDetector.Thresholds.init])

/-- C10: `get_recommended_actions` never returns an empty list; with no
recognized factor it returns exactly the general recommendation, and each
of the four recognized factors contributes its fixed action string. -/
theorem recommended_actions_nonempty (risk_factors : List String) :
    get_recommended_actions risk_factors ≠ [] ∧
    ("single_bidder" ∉ risk_factors → "unusually_low_price" ∉ risk_factors →
      "high_authority_win_rate" ∉ risk_factors →
      "geographic_monopoly_pattern" ∉ risk_factors →
      get_recommended_actions risk_factors =
        ["General risk assessment recommended"]) ∧
    ("single_bidder" ∈ risk_factors →
      "Investigate market conditions and bidder eligibility" ∈
        get_recommended_actions risk_factors) ∧
    ("unusually_low_price" ∈ risk_factors →
      "Review bid evaluation criteria and financial capacity" ∈
        get_recommended_actions risk_factors) ∧
    ("high_authority_win_rate" ∈ risk_factors →
      "Audit contracting authority procedures" ∈
        get_recommended_actions risk_factors) ∧
    ("geographic_monopoly_pattern" ∈ risk_factors →
      "Investigate regional market competition" ∈
        get_recommended_actions risk_factors) := by
  by_cases h1 : "single_bidder" ∈ risk_factors <;>
    by_cases h2 : "unusually_low_price" ∈ risk_factors <;>
      by_cases h3 : "high_authority_win_rate" ∈ risk_factors <;>
        by_cases h4 : "geographic_monopoly_pattern" ∈ risk_factors <;>
          simp [get_recommended_actions, h1, h2, h3, h4]

/-- Witness for `recommended_actions_nonempty`: the empty factor list
yields the general recommendation, and a `single_bidder` factor yields its
dedicated action. -/
theorem recommended_actions_nonempty_witness :
    get_recommended_actions [] = ["General risk assessment recommended"] ∧
    "Investigate market conditions and bidder eligibility" ∈
      get_recommended_actions ["single_bidder"] :=
  ⟨(recommended_actions_nonempty []).2.1 (by simp) (by simp) (by simp) (by simp),
   (recommended_actions_nonempty ["single_bidder"]).2.2.1 (by simp)⟩

end Claims2

section Claims3

open GeographicClusteringDetector

/-- The square `sin((x - y)/2)^2` is unchanged when the arguments swap. -/
lemma sin_half_sub_sq (x y : ℝ) :
    Real.sin ((x - y) / 2) ^ 2 = Real.sin ((y - x) / 2) ^ 2 := by
  rw [show (x - y) / 2 = -((y - x) / 2) by ring, Real.sin_neg, neg_sq]

/-- Swapping the two coordinate pairs leaves the Haversine distance
unchanged. -/
lemma calculate_distance_symm (lat1 lon1 lat2 lon2 : ℝ) :
    calculate_distance lat1 lon1 lat2 lon2 =
      calculate_distance lat2 lon2 lat1 lon1 := by
  simp only [calculate_distance]
  rw [sin_half_sub_sq (radians lat2) (radians lat1),
    sin_half_sub_sq (radians lon2) (radians lon1),
    mul_comm (Real.cos (radians lat1)) (Real.cos (radians lat2))]

/-- The Haversine distance from a point to itself is zero. -/
lemma calculate_distance_self (lat lon : ℝ) :
    calculate_distance lat lon lat lon = 0 := by
  simp [calculate_distance]

/-- The Haversine distance is never negative (`asin` of a nonnegative
square root is nonnegative). -/
lemma calculate_distance_nonneg (lat1 lon1 lat2 lon2 : ℝ) :
    0 ≤ calculate_distance lat1 lon1 lat2 lon2 := by
  simp only [calculate_distance]
  have h : 0 ≤ Real.arcsin (Real.sqrt
      (Real.sin ((radians lat2 - radians lat1) / 2) ^ 2
        + Real.cos (radians lat1) * Real.cos (radians lat2)
          * Real.sin ((radians lon2 - radians lon1) / 2) ^ 2)) :=
    Real.arcsin_nonneg.mpr (Real.sqrt_nonneg _)
  nlinarith

/-- C9: `calculate_distance` is a nonnegative, symmetric function that
vanishes on the diagonal, and consequently `find_nearby_authorities`
computes the same id list whether each distance test measures
center-to-authority or authority-to-center. -/
theorem calculate_distance_pseudometric :
    (∀ lat1 lon1 lat2 lon2 : ℝ, calculate_distance lat1 lon1 lat2 lon2 =
      calculate_distance lat2 lon2 lat1 lon1) ∧
    (∀ lat lon : ℝ, calculate_distance lat lon lat lon = 0) ∧
    (∀ lat1 lon1 lat2 lon2 : ℝ, 0 ≤ calculate_distance lat1 lon1 lat2 lon2) ∧
    (∀ (center_location : Location) (authorities : List AuthorityRow)
        (radius_km : ℝ),
      find_nearby_authorities center_location authorities radius_km =
        (authorities.filter (fun authority =>
          decide (calculate_distance authority.latitude authority.longitude
            center_location.latitude center_location.longitude
            ≤ radius_km))).map (fun authority => authority.id)) := by
  refine ⟨calculate_distance_symm, calculate_distance_self,
    calculate_distance_nonneg, ?_⟩
  intro center authorities radius_km
  unfold find_nearby_authorities
  congr 1
  apply List.filter_congr
  intro authority _
  rw [calculate_distance_symm]

end Claims3

section Claims4

open PriceAnomalyDetector RiskScoreCalculator

/-- The isolation-forest step pins `random_state=42`, so its output does
not depend on the ambient global random state. -/
lemma isolation_forest_analysis_rng_independent (self : Thresholds)
    (df : DecisionFunction) (rng1 rng2 : ℕ)
    (current_prices historical_prices : List ℝ) :
    isolation_forest_analysis self df rng1 current_prices historical_prices =
      isolation_forest_analysis self df rng2 current_prices historical_prices := rfl

/-- C5: with every input fixed (tender data, bids, authority history,
historical price sample, the detector results supplied by the other two
detectors, and the fitted anomaly model as a pure function), two runs of
the composite computation under different ambient random states produce
the same `CompositeResult`: the pipeline is deterministic, the anomaly
model step included, because `random_state=42` is pinned. -/
theorem composite_assessment_deterministic (self : Config)
    (sb_self : SingleBidderRiskDetector.Thresholds) (pa_self : Thresholds)
    (df : DecisionFunction) (rng1 rng2 : ℕ)
    (winner_price_check : List Bid → ℝ → WinnerResult)
    (tender : Tender) (bids : List Bid) (dbCount : Option ℕ)
    (historical_data : List HistItem)
    (frequent_winner_result geographic_result : DetectorResult) :
    run_assessment self sb_self pa_self df rng1 winner_price_check
        tender bids dbCount historical_data
        frequent_winner_result geographic_result =
      run_assessment self sb_self pa_self df rng2 winner_price_check
        tender bids dbCount historical_data
        frequent_winner_result geographic_result := rfl

end Claims4

section Claims5

open PriceAnomalyDetector RiskScoreCalculator

/-- A constant stand-in decision function for concrete examples (the
isolation-forest branch needs at least 20 historical prices and is never
reached in them). -/
def dfZero : DecisionFunction := fun _ _ _ _ => 0

/-- Ten historical prices alternating between 95 and 105: mean 100,
population standard deviation 5. -/
def hist10 : List HistItem :=
  [⟨95⟩, ⟨105⟩, ⟨95⟩, ⟨105⟩, ⟨95⟩, ⟨105⟩, ⟨95⟩, ⟨105⟩, ⟨95⟩, ⟨105⟩]

lemma npMean_hist10 :
    npMean ([95, 105, 95, 105, 95, 105, 95, 105, 95, 105] : List ℝ) = 100 := by
  norm_num [npMean]

lemma npStd_hist10 :
    npStd ([95, 105, 95, 105, 95, 105, 95, 105, 95, 105] : List ℝ) = 5 := by
  unfold npStd
  rw [npMean_hist10]
  norm_num
  rw [show (25 : ℝ) = 5 ^ 2 by norm_num]
  exact Real.sqrt_sq (by norm_num)

/-- Two identical bids of 120 against `hist10`: each has z-score 4 > 2.5
and sits above the mean, so the outlier loop emits the
`unusually_high_price` tag twice — one tag per outlier bid. -/
lemma detect_statistical_outliers_duplicate_tags :
    (detect_statistical_outliers Thresholds.init dfZero 0 [⟨120⟩, ⟨120⟩]
      hist10).risk_factors = ["unusually_high_price", "unusually_high_price"] := by
  unfold detect_statistical_outliers hist10
  simp only [List.isEmpty_cons, Bool.false_eq_true, if_false, List.map,
    npMean_hist10, npStd_hist10, List.length_cons, List.length_nil]
  norm_num [outlier_loop, z_score_of, List.foldl, Thresholds.init,
    abs_of_nonneg, show ((120:ℝ) - 100) / 5 = 4 by norm_num]

/-- C6 counterexample: a single detector can emit the same tag twice (one
per outlier bid), and `calculate_composite_risk_score` keeps both copies:
the composite `risk_factors` list is not duplicate-free. -/
theorem composite_duplicate_risk_factors :
    (detect_statistical_outliers Thresholds.init dfZero 0 [⟨120⟩, ⟨120⟩]
      hist10).risk_factors = ["unusually_high_price", "unusually_high_price"] ∧
    ∃ c, calculate_composite_risk_score Config.init (.ok ⟨0, []⟩)
        (.ok ⟨30, ["unusually_high_price", "unusually_high_price"]⟩)
        (.ok ⟨0, []⟩) (.ok ⟨0, []⟩) = .ok c ∧
      ¬ c.risk_factors.Nodup := by
  refine ⟨detect_statistical_outliers_duplicate_tags,
    combine_results Config.init ⟨0, []⟩
      ⟨30, ["unusually_high_price", "unusually_high_price"]⟩ ⟨0, []⟩ ⟨0, []⟩,
    rfl, ?_⟩
  simp [combine_results]

/-- C6 amended: the composite `risk_factors` list is the plain
order-preserving concatenation of the four detectors' tag lists, with
duplicates retained (no de-duplication is performed). -/
theorem composite_risk_factors_concatenation (self : Config)
    (d1 d2 d3 d4 : DetectorResult) :
    calculate_composite_risk_score self (.ok d1) (.ok d2) (.ok d3) (.ok d4)
      = .ok (combine_results self d1 d2 d3 d4) ∧
    (combine_results self d1 d2 d3 d4).risk_factors =
      d1.risk_factors ++ d2.risk_factors ++ d3.risk_factors ++ d4.risk_factors :=
  ⟨rfl, rfl⟩

end Claims5

section Claims6

open PriceAnomalyDetector

/-- Ten historical prices alternating between -1 and 1: mean 0 but
population standard deviation 1. -/
def histNeg : List HistItem :=
  [⟨-1⟩, ⟨1⟩, ⟨-1⟩, ⟨1⟩, ⟨-1⟩, ⟨1⟩, ⟨-1⟩, ⟨1⟩, ⟨-1⟩, ⟨1⟩]

lemma npMean_histNeg :
    npMean ([-1, 1, -1, 1, -1, 1, -1, 1, -1, 1] : List ℝ) = 0 := by
  norm_num [npMean]

lemma npStd_histNeg :
    npStd ([-1, 1, -1, 1, -1, 1, -1, 1, -1, 1] : List ℝ) = 1 := by
  unfold npStd
  rw [npMean_histNeg]
  norm_num

/-- C8 counterexample: a historical sample with mean zero but nonzero
standard deviation (it contains negative prices) does not force z-scores
to 0 — the code's division guard tests `std > 0`, not the mean.  A bid of
100 against `histNeg` has z-score 100 and picks up an outlier tag. -/
theorem zscore_nonzero_at_zero_mean :
    npMean (histNeg.map fun item => item.price) = 0 ∧
    npStd (histNeg.map fun item => item.price) = 1 ∧
    z_score_of (npMean (histNeg.map fun item => item.price))
      (npStd (histNeg.map fun item => item.price)) 100 = 100 ∧
    (detect_statistical_outliers Thresholds.init dfZero 0 [⟨100⟩]
      histNeg).risk_factors = ["unusually_high_price"] := by
  have hm : npMean (histNeg.map fun item => item.price) = 0 := by
    simp only [histNeg, List.map]
    exact npMean_histNeg
  have hs : npStd (histNeg.map fun item => item.price) = 1 := by
    simp only [histNeg, List.map]
    exact npStd_histNeg
  refine ⟨hm, hs, ?_, ?_⟩
  · rw [hm, hs]
    norm_num [z_score_of, abs_of_nonneg]
  · unfold detect_statistical_outliers histNeg
    simp only [List.isEmpty_cons, Bool.false_eq_true, if_false, List.map,
      npMean_histNeg, npStd_histNeg, List.length_cons, List.length_nil]
    norm_num [outlier_loop, z_score_of, List.foldl, Thresholds.init,
      abs_of_nonneg]

/-- The z-score guard makes the whole outlier loop a no-op when the
standard deviation is zero. -/
lemma outlier_loop_zero_std (historical_mean : ℝ) (current_prices : List ℝ) :
    outlier_loop Thresholds.init historical_mean 0 current_prices = (0, []) := by
  unfold outlier_loop
  suffices h : ∀ acc : ℝ × List String,
      current_prices.foldl
        (fun acc price =>
          let z_score := z_score_of historical_mean 0 price
          if Thresholds.init.z_score_threshold < z_score then
            if price < historical_mean then
              (acc.1 + 25, acc.2 ++ ["unusually_low_price"])
            else
              (acc.1 + 15, acc.2 ++ ["unusually_high_price"])
          else acc)
        acc = acc by
    exact h (0, [])
  intro acc
  induction current_prices generalizing acc with
  | nil => rfl
  | cons p ps ih =>
    simp only [List.foldl]
    rw [show z_score_of historical_mean 0 p = 0 by simp [z_score_of],
      if_neg (by norm_num [Thresholds.init])]
    exact ih acc

/-- A nonnegative sample with mean zero is identically zero, so its
population standard deviation is zero. -/
lemma npStd_eq_zero_of_nonneg_mean_zero (l : List ℝ)
    (hpos : ∀ x ∈ l, 0 ≤ x) (hmean : npMean l = 0) : npStd l = 0 := by
  rcases l with - | ⟨a, t⟩
  · simp [npStd, npMean]
  · have hlen : ((a :: t).length : ℝ) ≠ 0 :=
      Nat.cast_ne_zero.mpr (by simp)
    have hsum : (a :: t).sum = 0 := by
      unfold npMean at hmean
      rcases div_eq_zero_iff.mp hmean with h | h
      · exact h
      · exact absurd h hlen
    have hall : ∀ x ∈ a :: t, x = 0 := fun x hx =>
      le_antisymm (hsum ▸ List.single_le_sum hpos x hx) (hpos x hx)
    unfold npStd
    have hz : ((a :: t).map fun x => (x - npMean (a :: t)) ^ 2).sum = 0 := by
      apply List.sum_eq_zero
      intro y hy
      rcases List.mem_map.mp hy with ⟨x, hx, rfl⟩
      rw [hall x hx, hmean]
      norm_num
    rw [hz]
    simp

/-- With a zero standard deviation no outlier tag can appear in the result
of `detect_statistical_outliers` (only the isolation-forest tag can). -/
lemma detect_no_outlier_tags_of_zero_std (df : DecisionFunction) (rng : ℕ)
    (bids : List Bid) (historical_data : List HistItem)
    (hstd : npStd (historical_data.map fun item => item.price) = 0) :
    "unusually_low_price" ∉ (detect_statistical_outliers Thresholds.init df
      rng bids historical_data).risk_factors ∧
    "unusually_high_price" ∉ (detect_statistical_outliers Thresholds.init df
      rng bids historical_data).risk_factors := by
  unfold detect_statistical_outliers
  by_cases he : historical_data.isEmpty = true
  · simp [he]
  · simp only [he, if_false]
    rw [hstd, outlier_loop_zero_std]
    split_ifs <;> simp

end Claims6

section Claims7

open PriceAnomalyDetector

/-- C8 amended: the z-score computation is total and its division is
guarded by `std > 0`, so a z-score is treated as 0 whenever the historical
standard deviation is zero; in particular, for a nonnegative historical
sample with mean zero the standard deviation is zero, every z-score is 0
and the outlier loop adds no outlier tag. -/
theorem zscore_guard_on_zero_std :
    (∀ historical_mean price : ℝ, z_score_of historical_mean 0 price = 0) ∧
    (∀ (historical_data : List HistItem),
      (∀ item ∈ historical_data, 0 ≤ item.price) →
      npMean (historical_data.map fun item => item.price) = 0 →
      npStd (historical_data.map fun item => item.price) = 0 ∧
      (∀ price : ℝ,
        z_score_of (npMean (historical_data.map fun item => item.price))
          (npStd (historical_data.map fun item => item.price)) price = 0) ∧
      (∀ (df : DecisionFunction) (rng : ℕ) (bids : List Bid),
        "unusually_low_price" ∉ (detect_statistical_outliers Thresholds.init
          df rng bids historical_data).risk_factors ∧
        "unusually_high_price" ∉ (detect_statistical_outliers Thresholds.init
          df rng bids historical_data).risk_factors)) := by
  refine ⟨fun historical_mean price => by simp [z_score_of], ?_⟩
  intro historical_data hpos hmean
  have hstd : npStd (historical_data.map fun item => item.price) = 0 := by
    apply npStd_eq_zero_of_nonneg_mean_zero _ _ hmean
    intro x hx
    rcases List.mem_map.mp hx with ⟨item, hitem, rfl⟩
    exact hpos item hitem
  refine ⟨hstd, fun price => by rw [hstd]; simp [z_score_of], ?_⟩
  intro df rng bids
  exact detect_no_outlier_tags_of_zero_std df rng bids historical_data hstd

/-- Witness for `zscore_guard_on_zero_std` at the all-zero two-row sample
and a concrete zero-std z-score. -/
theorem zscore_guard_on_zero_std_witness :
    npStd (([⟨0⟩, ⟨0⟩] : List HistItem).map fun item => item.price) = 0 ∧
    z_score_of 5 0 9 = 0 :=
  ⟨(zscore_guard_on_zero_std.2 [⟨0⟩, ⟨0⟩]
      (by intro item h; simp at h; rcases h with rfl | rfl <;> norm_num)
      (by norm_num [npMean])).1,
   zscore_guard_on_zero_std.1 5 9⟩

end Claims7

section Claims8

open PriceAnomalyDetector

/-- The mean `np.mean` is invariant under permutation (in particular under the
in-place sort of `analyze_bid_spread`). -/
lemma npMean_perm {l1 l2 : List ℝ} (h : l1.Perm l2) : npMean l1 = npMean l2 := by
  unfold npMean
  rw [h.sum_eq, h.length_eq]

/-- The standard deviation `np.std` is invariant under permutation. -/
lemma npStd_perm {l1 l2 : List ℝ} (h : l1.Perm l2) : npStd l1 = npStd l2 := by
  unfold npStd
  rw [npMean_perm h, (h.map fun x => (x - npMean l2) ^ 2).sum_eq, h.length_eq]

/-- The sorted price list of `analyze_bid_spread` is a permutation of the
raw bid amounts. -/
lemma spread_prices_perm (bids : List Bid) :
    (spread_prices bids).Perm (bids.map fun bid => bid.bid_amount) := by
  unfold spread_prices
  exact List.mergeSort_perm _ _

/-- Three bids within 2% of a common floor `m` have coefficient of
variation at most 0.02: the mean stays in the same band, every deviation
is at most `0.02 m`, hence the standard deviation is at most `0.02 m`
while the mean is at least `m`. -/
lemma spread_cv_three_close (b1 b2 b3 m : ℝ) (hm : 0 < m)
    (h1l : m ≤ b1) (h1u : b1 ≤ 1.02 * m)
    (h2l : m ≤ b2) (h2u : b2 ≤ 1.02 * m)
    (h3l : m ≤ b3) (h3u : b3 ≤ 1.02 * m) :
    spread_cv [⟨b1⟩, ⟨b2⟩, ⟨b3⟩] ≤ 0.02 := by
  have hperm : (spread_prices [⟨b1⟩, ⟨b2⟩, ⟨b3⟩]).Perm [b1, b2, b3] := by
    simpa using spread_prices_perm [⟨b1⟩, ⟨b2⟩, ⟨b3⟩]
  have hmean3 : npMean [b1, b2, b3] = (b1 + b2 + b3) / 3 := by
    unfold npMean
    simp only [List.sum_cons, List.sum_nil, List.length_cons, List.length_nil]
    norm_num
    ring
  have hmean : npMean (spread_prices [⟨b1⟩, ⟨b2⟩, ⟨b3⟩]) = (b1 + b2 + b3) / 3 := by
    rw [npMean_perm hperm, hmean3]
  have hμl : m ≤ (b1 + b2 + b3) / 3 := by
    rw [le_div_iff (by norm_num : (0:ℝ) < 3)]
    linarith
  have hμu : (b1 + b2 + b3) / 3 ≤ 1.02 * m := by
    rw [div_le_iff (by norm_num : (0:ℝ) < 3)]
    linarith
  have hμpos : 0 < (b1 + b2 + b3) / 3 := lt_of_lt_of_le hm hμl
  have hd1 : (b1 - (b1 + b2 + b3) / 3) ^ 2 ≤ (0.02 * m) ^ 2 :=
    sq_le_sq' (by linarith) (by linarith)
  have hd2 : (b2 - (b1 + b2 + b3) / 3) ^ 2 ≤ (0.02 * m) ^ 2 :=
    sq_le_sq' (by linarith) (by linarith)
  have hd3 : (b3 - (b1 + b2 + b3) / 3) ^ 2 ≤ (0.02 * m) ^ 2 :=
    sq_le_sq' (by linarith) (by linarith)
  have hstd : npStd (spread_prices [⟨b1⟩, ⟨b2⟩, ⟨b3⟩]) ≤ 0.02 * m := by
    rw [npStd_perm hperm]
    unfold npStd
    rw [hmean3]
    simp only [List.map, List.sum_cons, List.sum_nil, List.length_cons,
      List.length_nil]
    have harg : (b1 - (b1 + b2 + b3) / 3) ^ 2
        + ((b2 - (b1 + b2 + b3) / 3) ^ 2
          + ((b3 - (b1 + b2 + b3) / 3) ^ 2 + 0)) ≤ 3 * (0.02 * m) ^ 2 := by
      linarith
    calc Real.sqrt (((b1 - (b1 + b2 + b3) / 3) ^ 2
          + ((b2 - (b1 + b2 + b3) / 3) ^ 2
            + ((b3 - (b1 + b2 + b3) / 3) ^ 2 + 0))) / ((0 + 1 + 1 + 1 : ℕ) : ℝ))
        ≤ Real.sqrt ((0.02 * m) ^ 2) := by
          apply Real.sqrt_le_sqrt
          rw [div_le_iff (by norm_num : (0:ℝ) < ((0 + 1 + 1 + 1 : ℕ) : ℝ))]
          push_cast
          linarith
      _ = 0.02 * m := Real.sqrt_sq (by linarith)
  simp only [spread_cv]
  rw [hmean, if_pos hμpos, div_le_iff hμpos]
  calc npStd (spread_prices [⟨b1⟩, ⟨b2⟩, ⟨b3⟩]) ≤ 0.02 * m := hstd
    _ ≤ 0.02 * ((b1 + b2 + b3) / 3) := by linarith

/-- Fewer than two bids: the spread check returns the empty result. -/
lemma analyze_bid_spread_short (bids : List Bid) (h : bids.length < 2) :
    analyze_bid_spread bids = ⟨0, [], none⟩ := by
  unfold analyze_bid_spread
  rw [if_pos h]

/-- More than two bids with CV below 0.05: the spread check contributes
exactly 30 and the `suspiciously_similar_bids` tag. -/
lemma analyze_bid_spread_similar (bids : List Bid) (hlen : 2 < bids.length)
    (hcv : spread_cv bids < 0.05) :
    (analyze_bid_spread bids).risk_score = 30 ∧
    "suspiciously_similar_bids" ∈ (analyze_bid_spread bids).risk_factors := by
  unfold analyze_bid_spread
  rw [if_neg (by omega)]
  simp only [if_pos (⟨hcv, hlen⟩ : spread_cv bids < 0.05 ∧ 2 < bids.length),
    if_neg (by intro h; linarith : ¬ (0.5 : ℝ) < spread_cv bids)]
  norm_num

/-- Two or more bids with CV above 0.5: the spread check contributes
exactly 15 and the `unusual_bid_spread` tag. -/
lemma analyze_bid_spread_unusual (bids : List Bid) (hlen : 2 ≤ bids.length)
    (hcv : (0.5 : ℝ) < spread_cv bids) :
    (analyze_bid_spread bids).risk_score = 15 ∧
    "unusual_bid_spread" ∈ (analyze_bid_spread bids).risk_factors := by
  unfold analyze_bid_spread
  rw [if_neg (by omega)]
  simp only [if_neg (by rintro ⟨h, -⟩; linarith :
      ¬ (spread_cv bids < 0.05 ∧ 2 < bids.length)),
    if_pos hcv]
  norm_num

/-- Each step of the outlier loop only ever adds to the accumulated
score, so the loop's score is nonnegative. -/
lemma outlier_loop_score_nonneg (self : Thresholds)
    (historical_mean historical_std : ℝ) (current_prices : List ℝ) :
    0 ≤ (outlier_loop self historical_mean historical_std current_prices).1 := by
  unfold outlier_loop
  suffices h : ∀ acc : ℝ × List String,
      acc.1 ≤ (current_prices.foldl
        (fun acc price =>
          let z_score := z_score_of historical_mean historical_std price
          if self.z_score_threshold < z_score then
            if price < historical_mean then
              (acc.1 + 25, acc.2 ++ ["unusually_low_price"])
            else
              (acc.1 + 15, acc.2 ++ ["unusually_high_price"])
          else acc)
        acc).1 by
    simpa using h (0, [])
  intro acc
  induction current_prices generalizing acc with
  | nil => exact le_refl _
  | cons p ps ih =>
    simp only [List.foldl]
    refine le_trans ?_ (ih _)
    split_ifs <;> simp

/-- The statistical outlier check contributes a nonnegative score on
every input. -/
lemma detect_statistical_outliers_score_nonneg (self : Thresholds)
    (df : DecisionFunction) (rng : ℕ) (bids : List Bid)
    (historical_data : List HistItem) :
    0 ≤ (detect_statistical_outliers self df rng bids
      historical_data).risk_score := by
  have h := outlier_loop_score_nonneg self
    (npMean (historical_data.map fun item => item.price))
    (npStd (historical_data.map fun item => item.price))
    (bids.map fun bid => bid.bid_amount)
  simp only [detect_statistical_outliers]
  split_ifs <;> simp <;> linarith

/-- C7: three bids within 2% of each other have CV < 0.05, so the
bid-spread sub-check scores 30 with the `suspiciously_similar_bids` tag,
and the detector's returned `analyze_price_anomaly` result (the
`price_anomaly_risk` sub-score) is at least 30 and carries that tag:
the spread contribution of 30 passes through
`min(outliers + spread + winner, 100)` because the outlier contribution
is nonnegative and the winner-price contribution (whose body is absent
from the source) is assumed nonnegative.  In general the spread check
runs only with at least 2 bids, fires the 30-point similar-bids branch
when CV < 0.05 with more than 2 bids, and fires the 15-point
`unusual_bid_spread` branch when CV > 0.5. -/
theorem similar_bids_collusion_flagged (b1 b2 b3 m : ℝ) (hm : 0 < m)
    (h1l : m ≤ b1) (h1u : b1 ≤ 1.02 * m)
    (h2l : m ≤ b2) (h2u : b2 ≤ 1.02 * m)
    (h3l : m ≤ b3) (h3u : b3 ≤ 1.02 * m)
    (df : DecisionFunction) (rng : ℕ)
    (winner_price_check : List Bid → ℝ → WinnerResult)
    (tender : Tender) (historical_data : List HistItem)
    (hw : 0 ≤ (winner_price_check [⟨b1⟩, ⟨b2⟩, ⟨b3⟩]
      tender.estimated_value).risk_score) :
    30 ≤ (analyze_price_anomaly Thresholds.init df rng winner_price_check
      tender [⟨b1⟩, ⟨b2⟩, ⟨b3⟩] historical_data).risk_score ∧
    "suspiciously_similar_bids" ∈
      (analyze_price_anomaly Thresholds.init df rng winner_price_check
        tender [⟨b1⟩, ⟨b2⟩, ⟨b3⟩] historical_data).risk_factors ∧
    spread_cv [⟨b1⟩, ⟨b2⟩, ⟨b3⟩] < 0.05 ∧
    30 ≤ (analyze_bid_spread [⟨b1⟩, ⟨b2⟩, ⟨b3⟩]).risk_score ∧
    "suspiciously_similar_bids" ∈
      (analyze_bid_spread [⟨b1⟩, ⟨b2⟩, ⟨b3⟩]).risk_factors ∧
    (∀ bids : List Bid, bids.length < 2 →
      analyze_bid_spread bids = ⟨0, [], none⟩) ∧
    (∀ bids : List Bid, 2 < bids.length → spread_cv bids < 0.05 →
      30 ≤ (analyze_bid_spread bids).risk_score ∧
      "suspiciously_similar_bids" ∈ (analyze_bid_spread bids).risk_factors) ∧
    (∀ bids : List Bid, 2 ≤ bids.length → (0.5 : ℝ) < spread_cv bids →
      15 ≤ (analyze_bid_spread bids).risk_score ∧
      "unusual_bid_spread" ∈ (analyze_bid_spread bids).risk_factors) := by
  have hcv : spread_cv [⟨b1⟩, ⟨b2⟩, ⟨b3⟩] < 0.05 :=
    lt_of_le_of_lt (spread_cv_three_close b1 b2 b3 m hm h1l h1u h2l h2u h3l h3u)
      (by norm_num)
  have hlen : 2 < ([⟨b1⟩, ⟨b2⟩, ⟨b3⟩] : List Bid).length := by simp
  obtain ⟨hscore, hmem⟩ := analyze_bid_spread_similar _ hlen hcv
  have hpa_score : (analyze_price_anomaly Thresholds.init df rng
        winner_price_check tender [⟨b1⟩, ⟨b2⟩, ⟨b3⟩]
        historical_data).risk_score
      = min ((if Thresholds.init.min_historical_samples ≤
            historical_data.length then
            detect_statistical_outliers Thresholds.init df rng
              [⟨b1⟩, ⟨b2⟩, ⟨b3⟩] historical_data
          else ⟨0, [], none⟩).risk_score
        + (analyze_bid_spread [⟨b1⟩, ⟨b2⟩, ⟨b3⟩]).risk_score
        + (winner_price_check [⟨b1⟩, ⟨b2⟩, ⟨b3⟩]
            tender.estimated_value).risk_score) 100 := by
    simp only [analyze_price_anomaly]
    rw [if_neg (by simp : ¬ ([⟨b1⟩, ⟨b2⟩, ⟨b3⟩] : List Bid).isEmpty = true),
      if_pos (by simp : 1 < ([⟨b1⟩, ⟨b2⟩, ⟨b3⟩] : List Bid).length)]
  have hpa_factors : (analyze_price_anomaly Thresholds.init df rng
        winner_price_check tender [⟨b1⟩, ⟨b2⟩, ⟨b3⟩]
        historical_data).risk_factors
      = (if Thresholds.init.min_historical_samples ≤
            historical_data.length then
            detect_statistical_outliers Thresholds.init df rng
              [⟨b1⟩, ⟨b2⟩, ⟨b3⟩] historical_data
          else ⟨0, [], none⟩).risk_factors
        ++ (analyze_bid_spread [⟨b1⟩, ⟨b2⟩, ⟨b3⟩]).risk_factors
        ++ (winner_price_check [⟨b1⟩, ⟨b2⟩, ⟨b3⟩]
            tender.estimated_value).risk_factors := by
    simp only [analyze_price_anomaly]
    rw [if_neg (by simp : ¬ ([⟨b1⟩, ⟨b2⟩, ⟨b3⟩] : List Bid).isEmpty = true),
      if_pos (by simp : 1 < ([⟨b1⟩, ⟨b2⟩, ⟨b3⟩] : List Bid).length)]
  have houtl : 0 ≤ (if Thresholds.init.min_historical_samples ≤
        historical_data.length then
        detect_statistical_outliers Thresholds.init df rng
          [⟨b1⟩, ⟨b2⟩, ⟨b3⟩] historical_data
      else ⟨0, [], none⟩).risk_score := by
    split_ifs
    · exact detect_statistical_outliers_score_nonneg Thresholds.init df rng
        [⟨b1⟩, ⟨b2⟩, ⟨b3⟩] historical_data
    · norm_num
  refine ⟨?_, ?_, hcv, le_of_eq hscore.symm, hmem,
    analyze_bid_spread_short, ?_, ?_⟩
  · rw [hpa_score]
    exact le_min (by linarith) (by norm_num)
  · rw [hpa_factors]
    simp [hmem]
  · intro bids hl hc
    obtain ⟨hs, hmem2⟩ := analyze_bid_spread_similar bids hl hc
    exact ⟨le_of_eq hs.symm, hmem2⟩
  · intro bids hl hc
    obtain ⟨hs, hmem2⟩ := analyze_bid_spread_unusual bids hl hc
    exact ⟨le_of_eq hs.symm, hmem2⟩

/-- Witness for `similar_bids_collusion_flagged` at three equal bids of
100, an empty historical sample and a zero winner-price contribution. -/
theorem similar_bids_collusion_flagged_witness :
    30 ≤ (analyze_price_anomaly Thresholds.init dfZero 0
      (fun _ _ => ⟨0, []⟩) ⟨100000, "30000000", 1⟩
      [⟨100⟩, ⟨100⟩, ⟨100⟩] []).risk_score ∧
    "suspiciously_similar_bids" ∈
      (analyze_price_anomaly Thresholds.init dfZero 0
        (fun _ _ => ⟨0, []⟩) ⟨100000, "30000000", 1⟩
        [⟨100⟩, ⟨100⟩, ⟨100⟩] []).risk_factors ∧
    spread_cv [⟨100⟩, ⟨100⟩, ⟨100⟩] < 0.05 :=
  ⟨(similar_bids_collusion_flagged 100 100 100 100 (by norm_num)
      (by norm_num) (by norm_num) (by norm_num) (by norm_num)
      (by norm_num) (by norm_num) dfZero 0 (fun _ _ => ⟨0, []⟩)
      ⟨100000, "30000000", 1⟩ [] (by norm_num)).1,
   (similar_bids_collusion_flagged 100 100 100 100 (by norm_num)
      (by norm_num) (by norm_num) (by norm_num) (by norm_num)
      (by norm_num) (by norm_num) dfZero 0 (fun _ _ => ⟨0, []⟩)
      ⟨100000, "30000000", 1⟩ [] (by norm_num)).2.1,
   (similar_bids_collusion_flagged 100 100 100 100 (by norm_num)
      (by norm_num) (by norm_num) (by norm_num) (by norm_num)
      (by norm_num) (by norm_num) dfZero 0 (fun _ _ => ⟨0, []⟩)
      ⟨100000, "30000000", 1⟩ [] (by norm_num)).2.2.1⟩

end Claims8
